import Mathlib

/-!
Verification of the `fs3` contract layer (`src/lib.rs`): cross-platform
file duplication, whole-file advisory locking, space allocation, and
filesystem statistics.  The contract layer in `lib.rs` delegates every
operation to a per-OS backend (`unix.rs` / `windows.rs`); those backend
files are not part of the sources at hand, so their behaviour is modelled
from the specification where a claim depends on it.
-/

namespace Fs3

/-- Error kinds of the embedded `std::io::Error` model.  `contended` is the
platform-normalized "lock contended" condition; the remaining constructors
stand for the other kinds an operation can surface. -/
inductive ErrorKind where
  | contended
  | permissionDenied
  | notFound
  | outOfSpace
  | unsupported
  | other
deriving DecidableEq, Repr

/-- An `std::io::Error` value.  `osId` distinguishes separately constructed
error values (Rust `io::Error` has no value equality; each construction is a
fresh value), while `kind` is what callers compare, mirroring
`Error::kind()`. -/
structure Error where
  kind : ErrorKind
  osId : Nat
deriving DecidableEq, Repr

/-- `FsStats` from `lib.rs`: a point-in-time snapshot of filesystem
statistics (fields `free_space`, `available_space`, `total_space`,
`allocation_granularity`). -/
structure FsStats where
  free_space : Nat
  available_space : Nat
  total_space : Nat
  allocation_granularity : Nat
deriving DecidableEq, Repr

/-- Accessor `FsStats::free_space`. -/
def FsStats.freeSpace (s : FsStats) : Nat := s.free_space

/-- Accessor `FsStats::available_space`. -/
def FsStats.availableSpace (s : FsStats) : Nat := s.available_space

/-- Accessor `FsStats::total_space`. -/
def FsStats.totalSpace (s : FsStats) : Nat := s.total_space

/-- Accessor `FsStats::allocation_granularity`. -/
def FsStats.allocationGranularity (s : FsStats) : Nat := s.allocation_granularity

/-- Opaque file handles of the embedding: the contract layer never inspects
them, it only passes them to the backend. -/
abbrev FileHandle : Type := Nat

/-- Paths, likewise opaque to the contract layer. -/
abbrev Path : Type := Nat

/-- The per-OS backend interface (`sys::*` in `lib.rs`): one function per
capability, exactly the set of functions `lib.rs` calls.  `lib.rs` is
compiled against exactly one such backend (`unix` or `windows`); here it is
a parameter so the contract layer's theorems hold for every backend. -/
structure SysBackend where
  duplicate : FileHandle → Except Error FileHandle
  allocated_size : FileHandle → Except Error Nat
  allocate : FileHandle → Nat → Except Error Unit
  lock_shared : FileHandle → Except Error Unit
  lock_exclusive : FileHandle → Except Error Unit
  try_lock_shared : FileHandle → Except Error Unit
  try_lock_exclusive : FileHandle → Except Error Unit
  unlock : FileHandle → Except Error Unit
  lock_error : Unit → Error
  statvfs : Path → Except Error FsStats

/-- `FileExt::duplicate` for `File` (`lib.rs` line 96): `sys::duplicate(self)`. -/
def duplicate (sys : SysBackend) (f : FileHandle) : Except Error FileHandle :=
  sys.duplicate f

/-- `FileExt::allocated_size` (`lib.rs` line 99): `sys::allocated_size(self)`. -/
def allocated_size (sys : SysBackend) (f : FileHandle) : Except Error Nat :=
  sys.allocated_size f

/-- `FileExt::allocate` (`lib.rs` line 102): `sys::allocate(self, len)`. -/
def allocate (sys : SysBackend) (f : FileHandle) (len : Nat) : Except Error Unit :=
  sys.allocate f len

/-- `FileExt::lock_shared` (`lib.rs` line 105): `sys::lock_shared(self)`. -/
def lock_shared (sys : SysBackend) (f : FileHandle) : Except Error Unit :=
  sys.lock_shared f

/-- `FileExt::lock_exclusive` (`lib.rs` line 108): `sys::lock_exclusive(self)`. -/
def lock_exclusive (sys : SysBackend) (f : FileHandle) : Except Error Unit :=
  sys.lock_exclusive f

/-- `FileExt::try_lock_shared` (`lib.rs` line 111): `sys::try_lock_shared(self)`. -/
def try_lock_shared (sys : SysBackend) (f : FileHandle) : Except Error Unit :=
  sys.try_lock_shared f

/-- `FileExt::try_lock_exclusive` (`lib.rs` line 114): `sys::try_lock_exclusive(self)`. -/
def try_lock_exclusive (sys : SysBackend) (f : FileHandle) : Except Error Unit :=
  sys.try_lock_exclusive f

/-- `FileExt::unlock` (`lib.rs` line 117): `sys::unlock(self)`. -/
def unlock (sys : SysBackend) (f : FileHandle) : Except Error Unit :=
  sys.unlock f

/-- `lock_contended_error` (`lib.rs` lines 124-126): `sys::lock_error()`. -/
def lock_contended_error (sys : SysBackend) : Error :=
  sys.lock_error ()

/-- `statvfs` (`lib.rs` lines 167-169): `sys::statvfs(path.as_ref())`. -/
def statvfs (sys : SysBackend) (p : Path) : Except Error FsStats :=
  sys.statvfs p

/-- `free_space` (`lib.rs` lines 173-175):
`statvfs(path).map(|stat| stat.free_space)`. -/
def free_space (sys : SysBackend) (p : Path) : Except Error Nat :=
  (statvfs sys p).map (fun stat => stat.free_space)

/-- `available_space` (`lib.rs` lines 179-181):
`statvfs(path).map(|stat| stat.available_space)`. -/
def available_space (sys : SysBackend) (p : Path) : Except Error Nat :=
  (statvfs sys p).map (fun stat => stat.available_space)

/-- `total_space` (`lib.rs` lines 185-187):
`statvfs(path).map(|stat| stat.total_space)`. -/
def total_space (sys : SysBackend) (p : Path) : Except Error Nat :=
  (statvfs sys p).map (fun stat => stat.total_space)

/-- `allocation_granularity` (`lib.rs` lines 194-196):
`statvfs(path).map(|stat| stat.allocation_granularity)`. -/
def allocation_granularity (sys : SysBackend) (p : Path) : Except Error Nat :=
  (statvfs sys p).map (fun stat => stat.allocation_granularity)

/-- Modelled from the spec: the per-OS backends `unix.rs` / `windows.rs` are
not among the sources; `sys::lock_error()` (spec §4.2, §7, §9: one canonical,
platform-normalized "lock contended" error, constructed anew on each call)
is modelled with `callId` standing for the call instance, so that distinct
calls yield distinct values of the same kind. -/
def sysLockError (callId : Nat) : Error :=
  { kind := ErrorKind.contended, osId := callId }

namespace Lock

/-- Modelled from the spec: the OS-held lock state of one file on disk
(`unix.rs` / `windows.rs` are not among the sources).  Spec §3 "Lock State":
per open-file-description a lock is none / shared / exclusive; any number of
shared holders XOR exactly one exclusive holder XOR none.  Holders are
open-file-description identifiers. -/
structure FileLockState where
  sharedHolders : List Nat
  exclHolder : Option Nat
deriving DecidableEq, Repr

/-- A freshly opened (or fully released) file: no lock held. -/
def unlockedFile : FileLockState :=
  { sharedHolders := [], exclHolder := none }

/-- Modelled from the spec: `sys::try_lock_shared` (spec §4.2): non-blocking;
succeeds unless another description holds an exclusive lock, in which case it
returns the contended error immediately.  Re-locking by the same description
is idempotent-safe (a shared request by the exclusive holder downgrades). -/
def try_lock_shared (st : FileLockState) (h : Nat) : Except Error FileLockState :=
  match st.exclHolder with
  | some o =>
    if o = h then
      Except.ok { sharedHolders := [h], exclHolder := none }
    else
      Except.error (sysLockError 0)
  | none =>
    Except.ok { st with
      sharedHolders := if h ∈ st.sharedHolders then st.sharedHolders else h :: st.sharedHolders }

/-- Modelled from the spec: `sys::try_lock_exclusive` (spec §4.2):
non-blocking; succeeds only when no other description holds any lock,
otherwise returns the contended error immediately.  Re-locking by the holder
itself is idempotent-safe. -/
def try_lock_exclusive (st : FileLockState) (h : Nat) : Except Error FileLockState :=
  match st.exclHolder with
  | some o =>
    if o = h then Except.ok st else Except.error (sysLockError 0)
  | none =>
    if st.sharedHolders.all (fun s => s = h) then
      Except.ok { sharedHolders := [], exclHolder := some h }
    else
      Except.error (sysLockError 0)

/-- Modelled from the spec: `sys::unlock` (spec §4.2): releases whatever lock
(shared or exclusive) the description currently holds; not an error when no
lock is held. -/
def unlock (st : FileLockState) (h : Nat) : Except Error FileLockState :=
  Except.ok
    { sharedHolders := st.sharedHolders.filter (fun s => s ≠ h),
      exclHolder := if st.exclHolder = some h then none else st.exclHolder }

/-- Modelled from the spec: `sys::lock_shared` (spec §4.2, §5): blocking;
`none` models the call suspending because the lock is currently unavailable,
`some st` models immediate acquisition. -/
def lock_shared (st : FileLockState) (h : Nat) : Option FileLockState :=
  match try_lock_shared st h with
  | Except.ok st' => some st'
  | Except.error _ => none

/-- Modelled from the spec: `sys::lock_exclusive` (spec §4.2, §5): blocking;
`none` models the call suspending because the lock is currently unavailable,
`some st` models immediate acquisition. -/
def lock_exclusive (st : FileLockState) (h : Nat) : Option FileLockState :=
  match try_lock_exclusive st h with
  | Except.ok st' => some st'
  | Except.error _ => none

end Lock

end Fs3

namespace Fs3

/-- C1: whenever `try_lock_shared` or `try_lock_exclusive` fails because the
file is already incompatibly locked, the error's kind equals that of the
canonical contention error (`sys::lock_error`, returned by
`lock_contended_error`), and that kind is distinguishable from every other
error kind. -/
theorem try_lock_failure_is_contended (st : Lock.FileLockState) (h c : Nat) (e : Error)
    (hfail : Lock.try_lock_shared st h = Except.error e ∨
      Lock.try_lock_exclusive st h = Except.error e) :
    e.kind = (sysLockError c).kind ∧
    e.kind = ErrorKind.contended ∧
    (∀ k : ErrorKind, k ≠ ErrorKind.contended → e.kind ≠ k) := by
  have hk : e.kind = ErrorKind.contended := by
    rcases hfail with hf | hf
    · unfold Lock.try_lock_shared at hf
      rcases hst : st.exclHolder with _ | o <;> rw [hst] at hf
      · simp at hf
      · by_cases ho : o = h
        · simp [ho] at hf
        · simp [ho] at hf
          rw [← hf]
          rfl
    · unfold Lock.try_lock_exclusive at hf
      rcases hst : st.exclHolder with _ | o <;> rw [hst] at hf
      · by_cases hall : st.sharedHolders.all (fun s => s = h)
        · simp [hall] at hf
        · simp [hall] at hf
          rw [← hf]
          rfl
      · by_cases ho : o = h
        · simp [ho] at hf
        · simp [ho] at hf
          rw [← hf]
          rfl
  refine ⟨hk, hk, ?_⟩
  intro k hne
  rw [hk]
  exact fun hkk => hne hkk.symm

/-- C1 witness: a file exclusively locked by description 0 makes description
1's `try_lock_shared` fail with the contended kind. -/
theorem try_lock_failure_is_contended_witness :
    (Lock.try_lock_shared { sharedHolders := [], exclHolder := some 0 } 1 =
        Except.error { kind := ErrorKind.contended, osId := 0 } ∨
      Lock.try_lock_exclusive { sharedHolders := [], exclHolder := some 0 } 1 =
        Except.error { kind := ErrorKind.contended, osId := 0 }) ∧
    (Error.mk ErrorKind.contended 0).kind = (sysLockError 7).kind := by
  refine ⟨Or.inl rfl, ?_⟩
  exact (try_lock_failure_is_contended { sharedHolders := [], exclHolder := some 0 } 1 7
    { kind := ErrorKind.contended, osId := 0 } (Or.inl rfl)).1

/-- C2: if description `h1` holds the exclusive lock on a freshly opened
file, then `h2`'s `try_lock_shared` and `try_lock_exclusive` both fail with
the contention condition, and after `h1` unlocks, an exclusive lock by `h2`
succeeds. -/
theorem exclusive_lock_excludes_until_release (h1 h2 : Nat) (hne : h1 ≠ h2)
    (st1 : Lock.FileLockState)
    (hlock : Lock.lock_exclusive Lock.unlockedFile h1 = some st1) :
    (∃ e, Lock.try_lock_shared st1 h2 = Except.error e ∧ e.kind = ErrorKind.contended) ∧
    (∃ e, Lock.try_lock_exclusive st1 h2 = Except.error e ∧ e.kind = ErrorKind.contended) ∧
    (∀ st2, Lock.unlock st1 h1 = Except.ok st2 →
      Lock.lock_exclusive st2 h2 = some { sharedHolders := [], exclHolder := some h2 }) := by
  have hst1 : st1 = { sharedHolders := [], exclHolder := some h1 } := by
    simp [Lock.lock_exclusive, Lock.try_lock_exclusive, Lock.unlockedFile] at hlock
    exact hlock.symm
  subst hst1
  have hne2 : ¬ (h1 = h2) := hne
  refine ⟨⟨sysLockError 0, ?_, rfl⟩, ⟨sysLockError 0, ?_, rfl⟩, ?_⟩
  · simp [Lock.try_lock_shared, hne2]
  · simp [Lock.try_lock_exclusive, hne2]
  · intro st2 hunlock
    simp [Lock.unlock] at hunlock
    rw [← hunlock]
    simp [Lock.lock_exclusive, Lock.try_lock_exclusive]

/-- C2 witness: concrete descriptions 0 and 1. -/
theorem exclusive_lock_excludes_until_release_witness :
    (0 : Nat) ≠ 1 ∧
    Lock.lock_exclusive Lock.unlockedFile 0 =
      some { sharedHolders := [], exclHolder := some 0 } ∧
    (∃ e, Lock.try_lock_shared { sharedHolders := [], exclHolder := some 0 } 1 =
      Except.error e ∧ e.kind = ErrorKind.contended) := by
  refine ⟨by decide, rfl, ?_⟩
  exact (exclusive_lock_excludes_until_release 0 1 (by decide)
    { sharedHolders := [], exclHolder := some 0 } rfl).1

namespace Alloc

/-- Modelled from the spec: the observable allocation state of one open file
(`unix.rs` / `windows.rs` are not among the sources).  `len` is the logical
file length the filesystem reports; `allocated` the physical reservation in
bytes (spec §3 "Allocated Size", §4.3). -/
structure AllocState where
  len : Nat
  allocated : Nat
deriving DecidableEq, Repr

/-- `ceil(len / g) * g`: the rounding the spec's Allocator contract (§4.3)
uses, as a natural-number formula. -/
def roundUp (len g : Nat) : Nat := ((len + g - 1) / g) * g

/-- Modelled from the spec: `sys::allocate` (spec §4.3): ensures at least
`len` bytes of physical space, rounded up to granularity `g`, and a logical
length of at least `len`; fails with a distinct out-of-space condition when
the filesystem cannot back the request (`avail` is the space available for
new allocation), never partially allocating. -/
def sysAllocate (g avail : Nat) (f : AllocState) (len : Nat) : Except Error AllocState :=
  if max f.allocated (roundUp len g) - f.allocated ≤ avail then
    Except.ok { len := max f.len len, allocated := max f.allocated (roundUp len g) }
  else
    Except.error { kind := ErrorKind.outOfSpace, osId := 0 }

/-- Modelled from the spec: `sys::allocated_size` (spec §4.3): reports the
current physical reservation in bytes. -/
def sysAllocatedSize (f : AllocState) : Nat := f.allocated

/-- Modelled from the spec: truncation via the handle's external set-length
capability (`File::set_len`; spec §4.3 "Shrink interaction"): the logical
length becomes `n`; shrinking reclaims physical space down to the smallest
granularity multiple covering `n`, extension adds no physical allocation. -/
def setLen (g : Nat) (f : AllocState) (n : Nat) : AllocState :=
  { len := n, allocated := min f.allocated (roundUp n g) }

end Alloc

/-- `len ≤ roundUp len g` when the granularity is positive. -/
theorem le_roundUp (len g : Nat) (hg : 0 < g) : len ≤ Alloc.roundUp len g := by
  have hmod := Nat.div_add_mod (len + g - 1) g
  have hlt : (len + g - 1) % g < g := Nat.mod_lt _ hg
  unfold Alloc.roundUp
  have hcomm : ((len + g - 1) / g) * g = g * ((len + g - 1) / g) :=
    Nat.mul_comm _ g
  omega

/-- `roundUp len g` is a multiple of `g`. -/
theorem dvd_roundUp (len g : Nat) : g ∣ Alloc.roundUp len g := by
  unfold Alloc.roundUp
  exact dvd_mul_left g _

/-- `roundUp len g` is the least multiple of `g` that is at least `len`. -/
theorem roundUp_le_of_dvd (len g m : Nat) (hg : 0 < g) (hd : g ∣ m)
    (hle : len ≤ m) : Alloc.roundUp len g ≤ m := by
  obtain ⟨k, rfl⟩ := hd
  unfold Alloc.roundUp
  have hq : (len + g - 1) / g < k + 1 := by
    rw [Nat.div_lt_iff_lt_mul hg]
    have hexp : (k + 1) * g = g * k + g := by ring
    omega
  have hq' : (len + g - 1) / g ≤ k := Nat.lt_succ_iff.mp hq
  calc ((len + g - 1) / g) * g ≤ k * g := Nat.mul_le_mul_right g hq'
    _ = g * k := Nat.mul_comm k g

/-- When `g` does not divide `len`, rounding is strict. -/
theorem lt_roundUp_of_not_dvd (len g : Nat) (hg : 0 < g) (hnd : ¬ g ∣ len) :
    len < Alloc.roundUp len g := by
  rcases Nat.lt_or_ge len (Alloc.roundUp len g) with h | h
  · exact h
  · exfalso
    apply hnd
    have heq : Alloc.roundUp len g = len :=
      Nat.le_antisymm h (le_roundUp len g hg)
    rw [← heq]
    exact dvd_roundUp len g

/-- C4: on a fresh zero-length file with granularity `g`, a successful
`allocate(len)` with `len` not a multiple of `g` makes `allocated_size()`
equal `ceil(len / g) * g` — a multiple of `g` and the least one covering
`len` — while the logical length becomes exactly `len`, strictly below the
allocated size. -/
theorem allocate_unaligned_rounds_up (g avail len : Nat) (hg : 0 < g)
    (hnd : ¬ g ∣ len) (f' : Alloc.AllocState)
    (hok : Alloc.sysAllocate g avail { len := 0, allocated := 0 } len = Except.ok f') :
    Alloc.sysAllocatedSize f' = Alloc.roundUp len g ∧
    g ∣ Alloc.sysAllocatedSize f' ∧
    (∀ m, g ∣ m → len ≤ m → Alloc.sysAllocatedSize f' ≤ m) ∧
    f'.len = len ∧
    f'.len < Alloc.sysAllocatedSize f' := by
  unfold Alloc.sysAllocate at hok
  split at hok
  case isFalse => exact absurd hok (by simp)
  case isTrue hcond =>
    have hf' : f' = { len := max 0 len, allocated := max 0 (Alloc.roundUp len g) } := by
      injection hok with h
      exact h.symm
    have hlen : f'.len = len := by rw [hf']; exact Nat.zero_max len
    have halloc : Alloc.sysAllocatedSize f' = Alloc.roundUp len g := by
      rw [hf']
      unfold Alloc.sysAllocatedSize
      exact Nat.zero_max _
    refine ⟨halloc, ?_, ?_, hlen, ?_⟩
    · rw [halloc]; exact dvd_roundUp len g
    · intro m hd hle
      rw [halloc]
      exact roundUp_le_of_dvd len g m hg hd hle
    · rw [hlen, halloc]
      exact lt_roundUp_of_not_dvd len g hg hnd

/-- C4 witness: granularity 4096, request 8191 bytes on a fresh file:
allocation becomes 8192, logical length 8191. -/
theorem allocate_unaligned_rounds_up_witness :
    (0 < 4096 ∧ ¬ (4096 ∣ 8191) ∧
      Alloc.sysAllocate 4096 8192 { len := 0, allocated := 0 } 8191 =
        Except.ok { len := 8191, allocated := 8192 }) ∧
    (Alloc.sysAllocatedSize { len := 8191, allocated := 8192 } = Alloc.roundUp 8191 4096 ∧
      4096 ∣ Alloc.sysAllocatedSize { len := 8191, allocated := 8192 } ∧
      (∀ m, 4096 ∣ m → 8191 ≤ m →
        Alloc.sysAllocatedSize { len := 8191, allocated := 8192 } ≤ m) ∧
      (Alloc.AllocState.mk 8191 8192).len = 8191 ∧
      (Alloc.AllocState.mk 8191 8192).len <
        Alloc.sysAllocatedSize { len := 8191, allocated := 8192 }) :=
  ⟨⟨by decide, by decide, rfl⟩,
    allocate_unaligned_rounds_up 4096 8192 8191 (by decide) (by decide)
      { len := 8191, allocated := 8192 } rfl⟩

/-- C5: `allocate(m)` with `m` at most the current allocated size succeeds
(whatever space is left on the filesystem) and leaves `allocated_size()`
unchanged; moreover allocated size never decreases across any successful
`allocate` call. -/
theorem allocate_idempotent_monotonic (g avail m : Nat) (f : Alloc.AllocState)
    (hg : 0 < g) (hdvd : g ∣ f.allocated) (hm : m ≤ f.allocated) :
    Alloc.sysAllocate g avail f m =
      Except.ok { len := max f.len m, allocated := Alloc.sysAllocatedSize f } ∧
    (∀ len f', Alloc.sysAllocate g avail f len = Except.ok f' →
      Alloc.sysAllocatedSize f ≤ Alloc.sysAllocatedSize f') := by
  have hru : Alloc.roundUp m g ≤ f.allocated :=
    roundUp_le_of_dvd m g f.allocated hg hdvd hm
  have hmax : max f.allocated (Alloc.roundUp m g) = f.allocated :=
    max_eq_left hru
  constructor
  · unfold Alloc.sysAllocate
    rw [hmax]
    simp [Alloc.sysAllocatedSize]
  · intro len f' hok
    unfold Alloc.sysAllocate at hok
    split at hok
    case isFalse => exact absurd hok (by simp)
    case isTrue hcond =>
      have hf' : f' = { len := max f.len len, allocated := max f.allocated (Alloc.roundUp len g) } := by
        injection hok with h
        exact h.symm
      rw [hf']
      unfold Alloc.sysAllocatedSize
      exact Nat.le_max_left _ _

/-- C5 witness: allocated size 8192 at granularity 4096; re-allocating 8192
bytes with zero free space still succeeds and changes nothing. -/
theorem allocate_idempotent_monotonic_witness :
    (0 < 4096 ∧ 4096 ∣ (Alloc.AllocState.mk 5000 8192).allocated ∧
      8192 ≤ (Alloc.AllocState.mk 5000 8192).allocated) ∧
    Alloc.sysAllocate 4096 0 { len := 5000, allocated := 8192 } 8192 =
      Except.ok { len := 8192, allocated := 8192 } :=
  ⟨⟨by decide, by decide, by decide⟩,
    (allocate_idempotent_monotonic 4096 0 8192 { len := 5000, allocated := 8192 }
      (by decide) (by decide) (by decide)).1⟩

/-- C6: truncating the logical length below the allocated size steps the
allocated size down to `ceil(new_len / g) * g`, the smallest granularity
multiple covering the new length. -/
theorem set_len_reclaims_allocation (g n : Nat) (f : Alloc.AllocState) (hg : 0 < g)
    (hdvd : g ∣ f.allocated) (hlt : n < f.allocated) :
    Alloc.sysAllocatedSize (Alloc.setLen g f n) = Alloc.roundUp n g ∧
    (Alloc.setLen g f n).len = n ∧
    g ∣ Alloc.sysAllocatedSize (Alloc.setLen g f n) ∧
    (∀ m, g ∣ m → n ≤ m → Alloc.sysAllocatedSize (Alloc.setLen g f n) ≤ m) := by
  have hru : Alloc.roundUp n g ≤ f.allocated :=
    roundUp_le_of_dvd n g f.allocated hg hdvd (Nat.le_of_lt hlt)
  have h1 : Alloc.sysAllocatedSize (Alloc.setLen g f n) = Alloc.roundUp n g := by
    unfold Alloc.sysAllocatedSize Alloc.setLen
    exact min_eq_right hru
  refine ⟨h1, rfl, ?_, ?_⟩
  · rw [h1]; exact dvd_roundUp n g
  · intro m hd hle
    rw [h1]
    exact roundUp_le_of_dvd n g m hg hd hle

/-- A concrete statistics snapshot used to instantiate contract-layer
theorems. -/
def sampleStats : FsStats :=
  { free_space := 50, available_space := 40, total_space := 100,
    allocation_granularity := 4096 }

/-- A concrete backend instance (used to instantiate the contract-layer
theorems at a specific input): statvfs always succeeds with `sampleStats`. -/
def sampleSys : SysBackend :=
  { duplicate := fun f => Except.ok (f + 1)
    allocated_size := fun _ => Except.ok 0
    allocate := fun _ _ => Except.ok ()
    lock_shared := fun _ => Except.ok ()
    lock_exclusive := fun _ => Except.ok ()
    try_lock_shared := fun _ => Except.ok ()
    try_lock_exclusive := fun _ => Except.error (sysLockError 0)
    unlock := fun _ => Except.ok ()
    lock_error := fun _ => sysLockError 0
    statvfs := fun _ => Except.ok sampleStats }

/-- A concrete backend instance whose statvfs always fails (used to
instantiate error-propagation conclusions at a specific input). -/
def sampleSysErr : SysBackend :=
  { sampleSys with statvfs := fun _ => Except.error { kind := ErrorKind.notFound, osId := 3 } }

/-- C3: each standalone path accessor is a pure projection of the result of
the one underlying `statvfs` query: when `statvfs` succeeds with snapshot
`s`, the four accessors return exactly the corresponding fields of `s`. -/
theorem accessors_project_single_statvfs (sys : SysBackend) (p : Path)
    (s : FsStats) (hok : statvfs sys p = Except.ok s) :
    free_space sys p = Except.ok s.free_space ∧
    available_space sys p = Except.ok s.available_space ∧
    total_space sys p = Except.ok s.total_space ∧
    allocation_granularity sys p = Except.ok s.allocation_granularity := by
  unfold free_space available_space total_space allocation_granularity
  rw [hok]
  exact ⟨rfl, rfl, rfl, rfl⟩

/-- C3 witness: the sample backend at path 0. -/
theorem accessors_project_single_statvfs_witness :
    statvfs sampleSys 0 = Except.ok sampleStats ∧
    (free_space sampleSys 0 = Except.ok sampleStats.free_space ∧
      available_space sampleSys 0 = Except.ok sampleStats.available_space ∧
      total_space sampleSys 0 = Except.ok sampleStats.total_space ∧
      allocation_granularity sampleSys 0 = Except.ok sampleStats.allocation_granularity) :=
  ⟨rfl, accessors_project_single_statvfs sampleSys 0 sampleStats rfl⟩

/-- The spec's filesystem-snapshot invariant (§3): free and available space
are bounded by total space, and available space never exceeds free space. -/
def FsStats.wellFormed (s : FsStats) : Prop :=
  s.free_space ≤ s.total_space ∧ s.available_space ≤ s.total_space ∧
    s.available_space ≤ s.free_space

/-- Modelled from the spec: the statvfs backend of a mounted filesystem
(`unix.rs` / `windows.rs` are not among the sources) only returns snapshots
satisfying the §3 invariant. -/
def SysBackend.statvfsWellFormed (sys : SysBackend) : Prop :=
  ∀ p s, sys.statvfs p = Except.ok s → s.wellFormed

/-- C7: any snapshot returned by a successful `statvfs` on a well-formed
backend satisfies `total_space ≥ free_space`, `total_space ≥
available_space` and `available_space ≤ free_space`. -/
theorem statvfs_snapshot_invariant (sys : SysBackend) (p : Path) (s : FsStats)
    (hwf : sys.statvfsWellFormed) (hok : statvfs sys p = Except.ok s) :
    s.free_space ≤ s.total_space ∧ s.available_space ≤ s.total_space ∧
      s.available_space ≤ s.free_space :=
  hwf p s hok

/-- C7 witness: the sample backend is well-formed and its snapshot satisfies
the invariant. -/
theorem statvfs_snapshot_invariant_witness :
    sampleSys.statvfsWellFormed ∧
    statvfs sampleSys 0 = Except.ok sampleStats ∧
    (sampleStats.free_space ≤ sampleStats.total_space ∧
      sampleStats.available_space ≤ sampleStats.total_space ∧
      sampleStats.available_space ≤ sampleStats.free_space) := by
  have hwf : sampleSys.statvfsWellFormed := by
    intro p s h
    have h' : (Except.ok sampleStats : Except Error FsStats) = Except.ok s := h
    injection h' with h2
    rw [← h2]
    exact ⟨by decide, by decide, by decide⟩
  exact ⟨hwf, rfl, statvfs_snapshot_invariant sampleSys 0 sampleStats hwf rfl⟩

/-- C9: every contract-layer operation is a thin fallible pass-through to
the backend function at the same arguments, and the derived accessors
propagate the single statvfs error unchanged, substituting no default. -/
theorem contract_layer_pass_through (sys : SysBackend) (f : FileHandle)
    (len : Nat) (p : Path) :
    duplicate sys f = sys.duplicate f ∧
    allocated_size sys f = sys.allocated_size f ∧
    allocate sys f len = sys.allocate f len ∧
    lock_shared sys f = sys.lock_shared f ∧
    lock_exclusive sys f = sys.lock_exclusive f ∧
    try_lock_shared sys f = sys.try_lock_shared f ∧
    try_lock_exclusive sys f = sys.try_lock_exclusive f ∧
    unlock sys f = sys.unlock f ∧
    lock_contended_error sys = sys.lock_error () ∧
    statvfs sys p = sys.statvfs p ∧
    (∀ e, sys.statvfs p = Except.error e →
      free_space sys p = Except.error e ∧
      available_space sys p = Except.error e ∧
      total_space sys p = Except.error e ∧
      allocation_granularity sys p = Except.error e) := by
  refine ⟨rfl, rfl, rfl, rfl, rfl, rfl, rfl, rfl, rfl, rfl, ?_⟩
  intro e he
  unfold free_space available_space total_space allocation_granularity statvfs
  rw [he]
  exact ⟨rfl, rfl, rfl, rfl⟩

/-- C9 witness: the erroring sample backend at handle 0, length 0, path 0;
the statvfs error is propagated verbatim by every accessor. -/
theorem contract_layer_pass_through_witness :
    duplicate sampleSysErr 0 = sampleSysErr.duplicate 0 ∧
    free_space sampleSysErr 0 = Except.error { kind := ErrorKind.notFound, osId := 3 } := by
  refine ⟨(contract_layer_pass_through sampleSysErr 0 0 0).1, ?_⟩
  exact ((contract_layer_pass_through sampleSysErr 0 0 0).2.2.2.2.2.2.2.2.2.2
    { kind := ErrorKind.notFound, osId := 3 } rfl).1

/-- C10: the modelled `sys::lock_error` behind `lock_contended_error`
constructs a fresh (distinct) error value on every call, every call yields
the same kind, and any two calls are interchangeable in the kind comparison
callers use to recognize contention. -/
theorem lock_error_fresh_and_deterministic (c1 c2 : Nat) (hne : c1 ≠ c2) :
    sysLockError c1 ≠ sysLockError c2 ∧
    (sysLockError c1).kind = (sysLockError c2).kind ∧
    (∀ e : Error, e.kind = (sysLockError c1).kind ↔ e.kind = (sysLockError c2).kind) := by
  refine ⟨?_, rfl, fun e => Iff.rfl⟩
  intro h
  apply hne
  have h' := congrArg Error.osId h
  exact h'

/-- C10 witness: two distinct call instances 0 and 1. -/
theorem lock_error_fresh_and_deterministic_witness :
    (0 : Nat) ≠ 1 ∧
    sysLockError 0 ≠ sysLockError 1 ∧
    (sysLockError 0).kind = (sysLockError 1).kind := by
  have h := lock_error_fresh_and_deterministic 0 1 (by decide)
  exact ⟨by decide, h.1, h.2.1⟩

namespace Dup

/-- Modelled from the spec: an OS open-file description (the `dup(2)` /
`DuplicateHandle` backends in `unix.rs` / `windows.rs` are not among the
sources): the shared cursor position and the file's byte content (spec §3
"Open File Handle" / "Duplicated Handle", §4.1). -/
structure OFD where
  pos : Nat
  content : List Nat
deriving DecidableEq, Repr

/-- Modelled from the spec: the handle table (a handle entry of `none` is
closed) and the OS open-file-description table, both indexed by position. -/
structure HandleState where
  ofds : List OFD
  handles : List (Option Nat)
deriving DecidableEq, Repr

/-- The open-file description referenced by handle `h`, if `h` is open. -/
def entry (s : HandleState) (h : Nat) : Option Nat :=
  (s.handles[h]?).bind id

/-- The description index and descriptor reached through handle `h`. -/
def lookup (s : HandleState) (h : Nat) : Option (Nat × OFD) :=
  (entry s h).bind (fun o => (s.ofds[o]?).map (fun f => (o, f)))

/-- Modelled from the spec: `sys::duplicate` (spec §4.1): returns a new
handle referencing the identical open-file description, in the next free
handle slot; fails on a closed handle. -/
def sysDuplicate (s : HandleState) (h : Nat) : Option (HandleState × Nat) :=
  (entry s h).map
    (fun o => (HandleState.mk s.ofds (s.handles ++ [some o]), s.handles.length))

/-- Modelled from the spec: writing all of `data` through handle `h`
(spec §4.1 "reading or writing through either handle is observable through
the other because the position is shared"): the bytes are placed at the
shared cursor (zero-filling any gap past end-of-file) and the shared cursor
advances past them. -/
def writeAll (s : HandleState) (h : Nat) (data : List Nat) : Option HandleState :=
  (lookup s h).map
    (fun p => HandleState.mk
      (s.ofds.set p.1 (OFD.mk (p.2.pos + data.length)
        (p.2.content.take p.2.pos ++ List.replicate (p.2.pos - p.2.content.length) 0 ++
          data ++ p.2.content.drop (p.2.pos + data.length))))
      s.handles)

/-- Modelled from the spec: reading to end-of-file through handle `h`:
yields the bytes from the shared cursor to the end and leaves the shared
cursor at end-of-file. -/
def readToEnd (s : HandleState) (h : Nat) : Option (List Nat × HandleState) :=
  (lookup s h).map
    (fun p => (p.2.content.drop p.2.pos,
      HandleState.mk (s.ofds.set p.1 (OFD.mk (max p.2.pos p.2.content.length) p.2.content))
        s.handles))

/-- Modelled from the spec: seeking handle `h` to the start rewinds the
shared cursor to 0. -/
def seekStart (s : HandleState) (h : Nat) : Option HandleState :=
  (lookup s h).map
    (fun p => HandleState.mk (s.ofds.set p.1 (OFD.mk 0 p.2.content)) s.handles)

/-- Modelled from the spec: closing (dropping) handle `h`: its slot is
vacated; the open-file description survives while other handles reference
it. -/
def closeHandle (s : HandleState) (h : Nat) : HandleState :=
  HandleState.mk s.ofds (s.handles.set h none)

end Dup

/-- Unfolding equation for `Dup.lookup` on an open handle. -/
theorem lookup_spec (s : Dup.HandleState) (h o : Nat) (f : Dup.OFD)
    (hh : s.handles[h]? = some (some o)) (hf : s.ofds[o]? = some f) :
    Dup.lookup s h = some (o, f) := by
  simp [Dup.lookup, Dup.entry, hh, hf]

/-- Unfolding equation for `Dup.sysDuplicate` on an open handle. -/
theorem sysDuplicate_spec (s : Dup.HandleState) (h o : Nat)
    (hh : s.handles[h]? = some (some o)) :
    Dup.sysDuplicate s h =
      some (Dup.HandleState.mk s.ofds (s.handles ++ [some o]), s.handles.length) := by
  simp [Dup.sysDuplicate, Dup.entry, hh]

/-- Unfolding equation for `Dup.writeAll` on an open handle. -/
theorem writeAll_spec (s : Dup.HandleState) (h o : Nat) (f : Dup.OFD)
    (data : List Nat) (hh : s.handles[h]? = some (some o))
    (hf : s.ofds[o]? = some f) :
    Dup.writeAll s h data =
      some (Dup.HandleState.mk
        (s.ofds.set o (Dup.OFD.mk (f.pos + data.length)
          (f.content.take f.pos ++ List.replicate (f.pos - f.content.length) 0 ++
            data ++ f.content.drop (f.pos + data.length))))
        s.handles) := by
  unfold Dup.writeAll
  rw [lookup_spec s h o f hh hf]
  rfl

/-- Unfolding equation for `Dup.readToEnd` on an open handle. -/
theorem readToEnd_spec (s : Dup.HandleState) (h o : Nat) (f : Dup.OFD)
    (hh : s.handles[h]? = some (some o)) (hf : s.ofds[o]? = some f) :
    Dup.readToEnd s h =
      some (f.content.drop f.pos,
        Dup.HandleState.mk (s.ofds.set o (Dup.OFD.mk (max f.pos f.content.length) f.content))
          s.handles) := by
  unfold Dup.readToEnd
  rw [lookup_spec s h o f hh hf]
  rfl

/-- Unfolding equation for `Dup.seekStart` on an open handle. -/
theorem seekStart_spec (s : Dup.HandleState) (h o : Nat) (f : Dup.OFD)
    (hh : s.handles[h]? = some (some o)) (hf : s.ofds[o]? = some f) :
    Dup.seekStart s h =
      some (Dup.HandleState.mk (s.ofds.set o (Dup.OFD.mk 0 f.content)) s.handles) := by
  unfold Dup.seekStart
  rw [lookup_spec s h o f hh hf]
  rfl

/-- C8: a duplicate shares the original's file position: on a fresh empty
file, after writing "foo" (bytes `[102, 111, 111]`) through `h1` and
closing `h1`, reading through the duplicate `h2` at the shared position
yields end-of-file (no bytes), and reading again after seeking `h2` to the
start yields "foo". -/
theorem duplicate_shares_position (s : Dup.HandleState) (h1 o : Nat)
    (hh : s.handles[h1]? = some (some o))
    (hf : s.ofds[o]? = some (Dup.OFD.mk 0 []))
    (s1 : Dup.HandleState) (h2 : Nat)
    (hdup : Dup.sysDuplicate s h1 = some (s1, h2))
    (s2 : Dup.HandleState)
    (hw : Dup.writeAll s1 h1 [102, 111, 111] = some s2) :
    ∃ s4, Dup.readToEnd (Dup.closeHandle s2 h1) h2 = some ([], s4) ∧
      ∃ s5, Dup.seekStart s4 h2 = some s5 ∧
        ∃ s6, Dup.readToEnd s5 h2 = some ([102, 111, 111], s6) := by
  obtain ⟨hlt1, -⟩ := List.getElem?_eq_some.mp hh
  obtain ⟨hlto, -⟩ := List.getElem?_eq_some.mp hf
  rw [sysDuplicate_spec s h1 o hh, Option.some_inj, Prod.mk.injEq] at hdup
  obtain ⟨hs1, hh2⟩ := hdup
  subst hs1
  subst hh2
  have hh1' : (s.handles ++ [some o])[h1]? = some (some o) := by
    rw [List.getElem?_append_left hlt1]
    exact hh
  have hw2 : Dup.writeAll (Dup.HandleState.mk s.ofds (s.handles ++ [some o]))
      h1 [102, 111, 111] =
      some (Dup.HandleState.mk (s.ofds.set o (Dup.OFD.mk 3 [102, 111, 111]))
        (s.handles ++ [some o])) := by
    rw [writeAll_spec (Dup.HandleState.mk s.ofds (s.handles ++ [some o]))
      h1 o (Dup.OFD.mk 0 []) [102, 111, 111] hh1' hf]
    rfl
  rw [hw2, Option.some_inj] at hw
  subst hw
  have hne12 : h1 ≠ s.handles.length := Nat.ne_of_lt hlt1
  have hh2' : ((s.handles ++ [some o]).set h1 none)[s.handles.length]? = some (some o) := by
    rw [List.getElem?_set_ne hne12]
    exact List.getElem?_concat_length _ _
  have hlto2 : o < (s.ofds.set o (Dup.OFD.mk 3 [102, 111, 111])).length := by
    rw [List.length_set]
    exact hlto
  have hlto3 : o <
      ((s.ofds.set o (Dup.OFD.mk 3 [102, 111, 111])).set o
        (Dup.OFD.mk 3 [102, 111, 111])).length := by
    rw [List.length_set, List.length_set]
    exact hlto
  have hlto4 : o <
      (((s.ofds.set o (Dup.OFD.mk 3 [102, 111, 111])).set o
        (Dup.OFD.mk 3 [102, 111, 111])).set o (Dup.OFD.mk 0 [102, 111, 111])).length := by
    rw [List.length_set]
    exact hlto3
  have hr1 : Dup.readToEnd (Dup.closeHandle (Dup.HandleState.mk
      (s.ofds.set o (Dup.OFD.mk 3 [102, 111, 111])) (s.handles ++ [some o])) h1)
      s.handles.length =
      some ([], Dup.HandleState.mk
        ((s.ofds.set o (Dup.OFD.mk 3 [102, 111, 111])).set o
          (Dup.OFD.mk 3 [102, 111, 111]))
        ((s.handles ++ [some o]).set h1 none)) := by
    rw [readToEnd_spec (Dup.closeHandle (Dup.HandleState.mk
      (s.ofds.set o (Dup.OFD.mk 3 [102, 111, 111])) (s.handles ++ [some o])) h1)
      s.handles.length o (Dup.OFD.mk 3 [102, 111, 111]) hh2'
      (List.getElem?_set_self hlto)]
    rfl
  have hs5 : Dup.seekStart (Dup.HandleState.mk
      ((s.ofds.set o (Dup.OFD.mk 3 [102, 111, 111])).set o
        (Dup.OFD.mk 3 [102, 111, 111]))
      ((s.handles ++ [some o]).set h1 none)) s.handles.length =
      some (Dup.HandleState.mk
        (((s.ofds.set o (Dup.OFD.mk 3 [102, 111, 111])).set o
          (Dup.OFD.mk 3 [102, 111, 111])).set o (Dup.OFD.mk 0 [102, 111, 111]))
        ((s.handles ++ [some o]).set h1 none)) := by
    rw [seekStart_spec (Dup.HandleState.mk
      ((s.ofds.set o (Dup.OFD.mk 3 [102, 111, 111])).set o
        (Dup.OFD.mk 3 [102, 111, 111]))
      ((s.handles ++ [some o]).set h1 none)) s.handles.length o
      (Dup.OFD.mk 3 [102, 111, 111]) hh2' (List.getElem?_set_self hlto2)]
  have hr2 : Dup.readToEnd (Dup.HandleState.mk
      (((s.ofds.set o (Dup.OFD.mk 3 [102, 111, 111])).set o
        (Dup.OFD.mk 3 [102, 111, 111])).set o (Dup.OFD.mk 0 [102, 111, 111]))
      ((s.handles ++ [some o]).set h1 none)) s.handles.length =
      some ([102, 111, 111], Dup.HandleState.mk
        ((((s.ofds.set o (Dup.OFD.mk 3 [102, 111, 111])).set o
          (Dup.OFD.mk 3 [102, 111, 111])).set o (Dup.OFD.mk 0 [102, 111, 111])).set o
          (Dup.OFD.mk 3 [102, 111, 111]))
        ((s.handles ++ [some o]).set h1 none)) := by
    rw [readToEnd_spec (Dup.HandleState.mk
      (((s.ofds.set o (Dup.OFD.mk 3 [102, 111, 111])).set o
        (Dup.OFD.mk 3 [102, 111, 111])).set o (Dup.OFD.mk 0 [102, 111, 111]))
      ((s.handles ++ [some o]).set h1 none)) s.handles.length o
      (Dup.OFD.mk 0 [102, 111, 111]) hh2' (List.getElem?_set_self hlto3)]
    rfl
  exact ⟨_, hr1, _, hs5, _, hr2⟩

/-- C8 witness: one open handle 0 on a fresh empty file, duplicated to
handle 1. -/
theorem duplicate_shares_position_witness :
    ((Dup.HandleState.mk [Dup.OFD.mk 0 []] [some 0]).handles[0]? = some (some 0) ∧
      (Dup.HandleState.mk [Dup.OFD.mk 0 []] [some 0]).ofds[0]? = some (Dup.OFD.mk 0 []) ∧
      Dup.sysDuplicate (Dup.HandleState.mk [Dup.OFD.mk 0 []] [some 0]) 0 =
        some (Dup.HandleState.mk [Dup.OFD.mk 0 []] [some 0, some 0], 1) ∧
      Dup.writeAll (Dup.HandleState.mk [Dup.OFD.mk 0 []] [some 0, some 0]) 0
          [102, 111, 111] =
        some (Dup.HandleState.mk [Dup.OFD.mk 3 [102, 111, 111]] [some 0, some 0])) ∧
    (∃ s4, Dup.readToEnd
        (Dup.closeHandle
          (Dup.HandleState.mk [Dup.OFD.mk 3 [102, 111, 111]] [some 0, some 0]) 0) 1 =
          some ([], s4) ∧
      ∃ s5, Dup.seekStart s4 1 = some s5 ∧
        ∃ s6, Dup.readToEnd s5 1 = some ([102, 111, 111], s6)) :=
  ⟨⟨rfl, rfl, rfl, rfl⟩,
    duplicate_shares_position (Dup.HandleState.mk [Dup.OFD.mk 0 []] [some 0]) 0 0
      rfl rfl (Dup.HandleState.mk [Dup.OFD.mk 0 []] [some 0, some 0]) 1 rfl
      (Dup.HandleState.mk [Dup.OFD.mk 3 [102, 111, 111]] [some 0, some 0]) rfl⟩

/-- C6 witness: a file with 8192 bytes allocated at granularity 4096,
truncated to length 4097: allocation steps down to the covering multiple
8192 (the spec's scenario `g + 1` with `g = 4096`), logical length 4097. -/
theorem set_len_reclaims_allocation_witness :
    (0 < 4096 ∧ 4096 ∣ (Alloc.AllocState.mk 8191 8192).allocated ∧
      4097 < (Alloc.AllocState.mk 8191 8192).allocated) ∧
    (Alloc.sysAllocatedSize (Alloc.setLen 4096 { len := 8191, allocated := 8192 } 4097) =
        Alloc.roundUp 4097 4096 ∧
      (Alloc.setLen 4096 { len := 8191, allocated := 8192 } 4097).len = 4097) :=
  ⟨⟨by decide, by decide, by decide⟩,
    ⟨(set_len_reclaims_allocation 4096 4097 { len := 8191, allocated := 8192 }
        (by decide) (by decide) (by decide)).1,
      (set_len_reclaims_allocation 4096 4097 { len := 8191, allocated := 8192 }
        (by decide) (by decide) (by decide)).2.1⟩⟩

end Fs3
